import Mathlib

/-!
Shallow embedding of `src/worker/worker.ts`: the worker bootstrap (`init`
message handler), the `VSCodeReporter` adapter, and their outbound messages.

External collaborators (the `vitest` engine constructor `createVitest`, the
module-loader `register` hook, `pathe.dirname`, and
`@vitest/utils`' `parseErrorStacktrace`) are modelled as explicit oracle
parameters: total functions supplied to each definition, with `Except`/`Option`
results standing for thrown exceptions (the error value is the thrown error's
`.stack` string, which is all the worker ever reads from it).

Opaque payloads that the worker forwards without inspecting (`File` objects,
console-log entries, `unknown` error values) are modelled as strings.
-/

/-- Opaque `File` payload forwarded by reporter callbacks. -/
abbrev VFile := String

/-- Opaque `UserConsoleLog` payload. -/
abbrev LogEntry := String

/-- A JavaScript `RegExp` value, as far as the worker observes it: its
`toString()` rendering `"/" ++ source ++ "/" ++ flags`. -/
structure Pattern where
  source : String
  flags : String
deriving DecidableEq

/-- `RegExp.prototype.toString()`: `/source/flags`. -/
def Pattern.toString (p : Pattern) : String :=
  "/" ++ p.source ++ "/" ++ p.flags

/-- Modelled from the spec: `setupFilePath` is imported from `../constants`,
which is not part of the given sources; the spec only requires it to be "a
fixed setup-file path", so it is modelled as an arbitrary fixed string. -/
def setupFilePath : String := "dist/setupFile.mjs"

/-- The slice of a resolved vitest configuration the worker touches:
`setupFiles` (possibly absent, guarded by `|| []` in the source). -/
structure VitestConfig where
  setupFiles : Option (List String)

/-- A vitest workspace project: its configuration plus its per-file source-map
accessor `getBrowserSourceMapModuleById` (an external collaborator, modelled
as a function into an opaque source-map value). -/
structure Project where
  config : VitestConfig
  getBrowserSourceMapModuleById : String → Option String

/-- `ctx.configOverride`: the currently active name-filter pattern, if any. -/
structure ConfigOverride where
  testNamePattern : Option Pattern

/-- The slice of a `Vitest` engine instance the worker reads or mutates. -/
structure Vitest where
  config : VitestConfig
  projects : List Project
  configOverride : ConfigOverride
  getProjectByTaskId : String → Project

/-- An error value inside a `TaskResult`: either a non-object value
(`typeof error !== 'object'` or `null`), or an error object with a mutable
`stacks` field plus its remaining (opaque) payload. -/
inductive TaskError where
  | prim (v : String)
  | obj («stacks» : List String) (payload : String)
deriving DecidableEq

/-- The slice of a `TaskResult` the worker touches: its `errors` array. -/
structure TaskResult where
  errors : Option (List TaskError)
deriving DecidableEq

/-- One `TaskResultPack` tuple `[taskId, result]`. -/
structure TaskResultPack where
  taskId : String
  result : Option TaskResult
deriving DecidableEq

/-- An outbound RPC event, tagged with the emitting adapter's identity. -/
inductive Event where
  | consoleLog (id : String) (log : LogEntry)
  | taskUpdate (id : String) (packs : List TaskResultPack)
  | finished (id : String) (files : Option (List VFile))
      (errors : Option (List String)) (collecting : Bool)
  | collected (id : String) (files : Option (List VFile)) (collecting : Bool)
  | watcherStart (id : String) (files : Option (List VFile))
      (errors : Option (List String)) (collecting : Bool)
  | watcherRerun (id : String) (files : List String) (trigger : Option String)
      (collecting : Bool)
deriving DecidableEq

/-- The `VSCodeReporter` adapter's state: the engine back-reference `ctx`,
the target identity `id`, and the RPC channel reference (absent until
`initRpc` wires it). In the source the fields are definitely-assigned (`!`);
here the adapter state is built at `initVitest` time. -/
structure VSCodeReporter where
  rpc : Option Unit
  ctx : Vitest
  id : String

/-- `[...(setupFiles || []), setupFilePath]`: append the fixed setup file to a
configuration's setup-file list, preserving existing entries. -/
def appendSetupFile (c : VitestConfig) : VitestConfig :=
  { c with setupFiles := some (c.setupFiles.getD [] ++ [setupFilePath]) }

/-- `VSCodeReporter.initVitest(ctx, id)`: store the engine back-reference and
identity, and append `setupFilePath` to the root configuration's and every
project configuration's setup-file list. -/
def VSCodeReporter.initVitest (ctx : Vitest) (idv : String) : VSCodeReporter :=
  let ctx' : Vitest :=
    { ctx with
      config := appendSetupFile ctx.config
      projects := ctx.projects.map fun p => { p with config := appendSetupFile p.config } }
  { rpc := none, ctx := ctx', id := idv }

/-- `VSCodeReporter.initRpc(rpc)`. -/
def VSCodeReporter.initRpc (r : VSCodeReporter) : VSCodeReporter :=
  { r with rpc := some () }

/-- `get isCollecting(): this.ctx.configOverride.testNamePattern?.toString() === '/$a/'`.
With no active pattern the optional chain yields `undefined`, and
`undefined === '/$a/'` is `false`. -/
def VSCodeReporter.isCollecting (r : VSCodeReporter) : Bool :=
  match r.ctx.configOverride.testNamePattern with
  | some p => p.toString == "/$a/"
  | none => false

/-- `onUserConsoleLog(log)`: forwarded immediately. -/
def VSCodeReporter.onUserConsoleLog (r : VSCodeReporter) (log : LogEntry) : Event :=
  .consoleLog r.id log

/-- The per-error body of `onTaskUpdate`'s `forEach`: an object error has its
`stacks` field overwritten with `parseErrorStacktrace(error, { getSourceMap })`
where `getSourceMap` is the project's `getBrowserSourceMapModuleById`; a
non-object error is left untouched. `parse` is the external
`parseErrorStacktrace`, taking the error and the source-map accessor. -/
def resolveError (parse : TaskError → (String → Option String) → List String)
    (project : Project) : TaskError → TaskError
  | .prim v => .prim v
  | .obj «stacks» payload =>
      .obj (parse (.obj «stacks» payload) project.getBrowserSourceMapModuleById) payload

/-- `onTaskUpdate(packs)`: enrich every object error's `stacks` in place using
the project looked up by the pack's task id, then forward the full batch as
`taskUpdate(id, packs)`. Returns the mutated batch and the emitted event. -/
def VSCodeReporter.onTaskUpdate
    (parse : TaskError → (String → Option String) → List String)
    (r : VSCodeReporter) (packs : List TaskResultPack) :
    List TaskResultPack × Event :=
  let packs' := packs.map fun pk =>
    let project := r.ctx.getProjectByTaskId pk.taskId
    { pk with
      result := pk.result.map fun res =>
        { res with errors := res.errors.map (List.map (resolveError parse project)) } }
  (packs', Event.taskUpdate r.id packs')

/-- `onFinished(files, errors)`: the event whose delivery is deferred by
`nextTick`; the `collecting` flag is read at call time. -/
def VSCodeReporter.onFinished (r : VSCodeReporter) (files : Option (List VFile))
    (errors : Option (List String)) : Event :=
  .finished r.id files errors r.isCollecting

/-- `onCollected(files)`: forwarded immediately. -/
def VSCodeReporter.onCollected (r : VSCodeReporter) (files : Option (List VFile)) : Event :=
  .collected r.id files r.isCollecting

/-- `onWatcherStart(files, errors)`: forwarded immediately. -/
def VSCodeReporter.onWatcherStart (r : VSCodeReporter) (files : Option (List VFile))
    (errors : Option (List String)) : Event :=
  .watcherStart r.id files errors r.isCollecting

/-- `onWatcherRerun(files, trigger)`: forwarded immediately. -/
def VSCodeReporter.onWatcherRerun (r : VSCodeReporter) (files : List String)
    (trigger : Option String) : Event :=
  .watcherRerun r.id files trigger r.isCollecting

/-! ## Cooperative scheduling of reporter callbacks

`onFinished` defers its event with `process.nextTick`; every other callback
emits immediately. A synchronous run is a list of operations on one adapter:
reporter callbacks invoked by the engine, and engine-side mutations of
`configOverride.testNamePattern` (the only adapter-visible state the engine
mutates between a callback and the tick flush). After the synchronous run,
queued `nextTick` callbacks fire in FIFO order. -/

/-- One operation of a synchronous run against a single adapter. -/
inductive ReporterOp where
  | callFinished (files : Option (List VFile)) (errors : Option (List String))
  | callCollected (files : Option (List VFile))
  | setPattern (p : Option Pattern)

/-- State while a synchronous run executes: the adapter, the events already
posted to the channel, and the events queued by `nextTick`. -/
structure LoopState where
  rep : VSCodeReporter
  out : List Event
  ticks : List Event

/-- Execute one operation. `callFinished` snapshots the `collecting` flag now
(inside `VSCodeReporter.onFinished`) and queues the finished event; `callCollected`
posts immediately; `setPattern` models the engine overwriting the active
name-filter pattern. -/
def stepOp (s : LoopState) : ReporterOp → LoopState
  | .callFinished f e => { s with ticks := s.ticks ++ [s.rep.onFinished f e] }
  | .callCollected f => { s with out := s.out ++ [s.rep.onCollected f] }
  | .setPattern p =>
      { s with rep :=
        { s.rep with ctx := { s.rep.ctx with configOverride := { testNamePattern := p } } } }

/-- Run a synchronous batch of operations starting from adapter `r`, then
flush the `nextTick` queue: the host observes `out ++ ticks`. -/
def runLoop (r : VSCodeReporter) (ops : List ReporterOp) : List Event :=
  let s := ops.foldl stepOp { rep := r, out := [], ticks := [] }
  s.out ++ s.ticks

/-- The adapter with the engine's active name-filter pattern replaced by `p`. -/
def setPat (r : VSCodeReporter) (p : Option Pattern) : VSCodeReporter :=
  { r with ctx := { r.ctx with configOverride := { testNamePattern := p } } }

/-! ## Worker bootstrap -/

/-- One target descriptor from the `init` payload (`WorkerMeta`). -/
structure TargetMeta where
  id : String
  configFile : Option String
  workspaceFile : Option String
  vitestNodePath : String
deriving DecidableEq

/-- The `init` message payload (`WorkerRunnerOptions`). -/
structure WorkerRunnerOptions where
  meta : List TargetMeta
  loader : Option String

/-- One element of an outbound message's `errors` array. The per-target path
pushes two-element arrays `[meta.id, err.stack]` (modelled by `pair`); the
top-level `error` function sends bare strings (modelled by `str`). -/
inductive ErrEntry where
  | pair (identity : String) (stack : String)
  | str (s : String)
deriving DecidableEq

/-- An outbound control message (`process.send` payload), tagged by `type`. -/
inductive OutMsg where
  | ready (errors : List ErrEntry)
  | error (errors : List ErrEntry)
  | debug
deriving DecidableEq

/-- A process-level effect performed by the `init` handler, in order:
`process.chdir(dir)` or `process.send(msg)`. -/
inductive Eff where
  | chdir (dir : String)
  | send (m : OutMsg)
deriving DecidableEq

/-- The record `{ vitest, reporter, meta }` returned by the free function
`initVitest`; `vitest` is the engine instance after the reporter's
`initVitest` mutated its configuration. -/
structure VitestHandle where
  vitest : Vitest
  reporter : VSCodeReporter
  meta : TargetMeta

/-- The free async function `initVitest(meta)`: construct the engine via the
external `createVitest` (oracle `createVitestO`; a thrown error surfaces as
`Except.error` carrying its `.stack` string), then run the reporter's
`initVitest(vitest, meta.id)` and return `{ vitest, reporter, meta }`. -/
def initVitest (createVitestO : TargetMeta → Except String Vitest)
    (meta : TargetMeta) : Except String VitestHandle :=
  match createVitestO meta with
  | .error stack => .error stack
  | .ok v =>
      let reporter := VSCodeReporter.initVitest v meta.id
      .ok { vitest := reporter.ctx, reporter := reporter, meta := meta }

/-- The top-level `error(err)` helper: `process.send({ type: 'error',
errors: ['', String(err.stack)] })` — note the flat two-string array. -/
def error (stack : String) : OutMsg :=
  .error [.str "", .str stack]

/-- The `for (const meta of data.meta)` loop: per target, `process.chdir
(dirname(meta.id))`, then attempt `initVitest(meta)`; a success is pushed onto
`vitest`, a failure pushes `[meta.id, err.stack]` onto `errors` and the loop
continues. Returns the effect trace, the error list and the handle list, each
in payload order. -/
def runTargets (dirnameO : String → String)
    (createVitestO : TargetMeta → Except String Vitest) :
    List TargetMeta → List Eff × List ErrEntry × List VitestHandle
  | [] => ([], [], [])
  | m :: rest =>
    let (effs, errs, vs) := runTargets dirnameO createVitestO rest
    match initVitest createVitestO m with
    | .ok h => (Eff.chdir (dirnameO m.id) :: effs, errs, h :: vs)
    | .error stack =>
        (Eff.chdir (dirnameO m.id) :: effs, ErrEntry.pair m.id stack :: errs, vs)

/-- Everything the `init` handler does and leaves behind: the ordered
`chdir`/`send` effect trace, the `vitest` array of live handles (reporters
wired to the RPC channel), and whether the shared RPC channel was built. -/
structure InitOutcome where
  effs : List Eff
  vitest : List VitestHandle
  rpcConstructed : Bool

/-- The body of the `init` handler after loader registration: run the target
loop, restore the working directory, then either send a terminal `error`
(no target succeeded — no RPC channel, `return`) or build the RPC channel,
wire every reporter (`initRpc`) and send `ready` with the accumulated
errors. -/
def initMain (dirnameO : String → String)
    (createVitestO : TargetMeta → Except String Vitest)
    (cwd : String) (data : WorkerRunnerOptions) : InitOutcome :=
  let res := runTargets dirnameO createVitestO data.meta
  let effs := res.1 ++ [Eff.chdir cwd]
  let errors := res.2.1
  let vitest := res.2.2
  if vitest.isEmpty then
    { effs := effs ++ [.send (.error errors)], vitest := [], rpcConstructed := false }
  else
    { effs := effs ++ [.send (.ready errors)]
      vitest := vitest.map fun h => { h with reporter := h.reporter.initRpc }
      rpcConstructed := true }

/-- The `init` message handler: optionally `register(data.loader)` (oracle
`registerO`, returning `some stack` when registration throws); an escaping
error is caught by the top-level `catch` and reported via `error(err)`;
otherwise proceed with the main body. `cwd` is the `process.cwd()` captured
at module load. -/
def init (dirnameO : String → String) (registerO : String → Option String)
    (createVitestO : TargetMeta → Except String Vitest)
    (cwd : String) (data : WorkerRunnerOptions) : InitOutcome :=
  match data.loader with
  | some l =>
    match registerO l with
    | some stack => { effs := [.send (error stack)], vitest := [], rpcConstructed := false }
    | none => initMain dirnameO createVitestO cwd data
  | none => initMain dirnameO createVitestO cwd data

/-- Loader registration does not throw (either no loader is requested or the
`register` oracle succeeds). -/
def loaderOk (registerO : String → Option String) (data : WorkerRunnerOptions) : Prop :=
  match data.loader with
  | none => True
  | some l => registerO l = none

/-- The startup error list the loop accumulates: one `[identity, stack]` pair
per target whose engine construction throws, in payload order. -/
def failEntries (createVitestO : TargetMeta → Except String Vitest)
    (metas : List TargetMeta) : List ErrEntry :=
  metas.filterMap fun m =>
    match createVitestO m with
    | .error s => some (.pair m.id s)
    | .ok _ => none

/-- The handles of the targets whose construction succeeds, in payload order. -/
def okHandles (createVitestO : TargetMeta → Except String Vitest)
    (metas : List TargetMeta) : List VitestHandle :=
  metas.filterMap fun m => (initVitest createVitestO m).toOption

/-- The messages sent over the process channel, in order. -/
def sendsOf (effs : List Eff) : List OutMsg :=
  effs.filterMap fun e => match e with | .send m => some m | _ => none

/-- The working-directory changes performed, in order. -/
def chdirsOf (effs : List Eff) : List String :=
  effs.filterMap fun e => match e with | .chdir d => some d | _ => none

/-- The process working directory after a trace of effects. -/
def finalCwd (start : String) (effs : List Eff) : String :=
  effs.foldl (fun c e => match e with | .chdir d => d | _ => c) start

/-! ## Helper lemmas -/

theorem isEmpty_false_of_ne_nil {α : Type _} {l : List α} (h : l ≠ []) :
    l.isEmpty = false := by
  cases l with
  | nil => exact absurd rfl h
  | cons a t => rfl

/-- The target loop visits every target in payload order: one `chdir` per
target, the failures' `[id, stack]` pairs, and the successes' handles. -/
theorem runTargets_eq (d : String → String) (c : TargetMeta → Except String Vitest) :
    ∀ metas : List TargetMeta,
      runTargets d c metas =
        ((metas.map fun m => Eff.chdir (d m.id)), failEntries c metas, okHandles c metas)
  | [] => rfl
  | m :: rest => by
    have ih := runTargets_eq d c rest
    cases h : c m with
    | ok v =>
      simp [runTargets, ih, initVitest, h, failEntries, okHandles, List.filterMap_cons,
        Except.toOption]
    | error s =>
      simp [runTargets, ih, initVitest, h, failEntries, okHandles, List.filterMap_cons,
        Except.toOption]

/-- Every target is either a failure entry or a live handle. -/
theorem failEntries_length_add_okHandles_length
    (c : TargetMeta → Except String Vitest) :
    ∀ metas : List TargetMeta,
      (failEntries c metas).length + (okHandles c metas).length = metas.length
  | [] => rfl
  | m :: rest => by
    have ih := failEntries_length_add_okHandles_length c rest
    cases h : c m with
    | ok v =>
      simp only [failEntries, okHandles, List.filterMap_cons, h, initVitest,
        Except.toOption, List.length_cons] at ih ⊢
      omega
    | error s =>
      simp only [failEntries, okHandles, List.filterMap_cons, h, initVitest,
        Except.toOption, List.length_cons] at ih ⊢
      omega

theorem okHandles_eq_nil_of_all_fail (c : TargetMeta → Except String Vitest)
    {metas : List TargetMeta} (hall : ∀ m ∈ metas, ∃ s, c m = Except.error s) :
    okHandles c metas = [] := by
  induction metas with
  | nil => rfl
  | cons m rest ih =>
    obtain ⟨s, hs⟩ := hall m (List.mem_cons_self m rest)
    simp only [okHandles, List.filterMap_cons, initVitest, hs]
    exact ih fun x hx => hall x (List.mem_cons_of_mem m hx)

theorem failEntries_length_of_all_fail (c : TargetMeta → Except String Vitest)
    {metas : List TargetMeta} (hall : ∀ m ∈ metas, ∃ s, c m = Except.error s) :
    (failEntries c metas).length = metas.length := by
  have h1 := failEntries_length_add_okHandles_length c metas
  rw [okHandles_eq_nil_of_all_fail c hall] at h1
  simpa using h1

/-- When loader registration does not throw, `init` runs the main body. -/
theorem init_eq_initMain (d : String → String) (registerO : String → Option String)
    (c : TargetMeta → Except String Vitest) (cwd : String)
    (data : WorkerRunnerOptions) (hld : loaderOk registerO data) :
    init d registerO c cwd data = initMain d c cwd data := by
  cases hl : data.loader with
  | none => simp [init, hl]
  | some l =>
    have hr : registerO l = none := by
      have h := hld
      unfold loaderOk at h
      rw [hl] at h
      simpa using h
    simp [init, hl, hr]

theorem sendsOf_append (a b : List Eff) : sendsOf (a ++ b) = sendsOf a ++ sendsOf b :=
  List.filterMap_append a b _

theorem chdirsOf_append (a b : List Eff) : chdirsOf (a ++ b) = chdirsOf a ++ chdirsOf b :=
  List.filterMap_append a b _

theorem sendsOf_map_chdir {α : Type _} (f : α → String) (l : List α) :
    sendsOf (l.map fun a => Eff.chdir (f a)) = [] := by
  induction l with
  | nil => rfl
  | cons a t ih => simp [sendsOf, List.filterMap_cons, ih]

theorem chdirsOf_map_chdir {α : Type _} (f : α → String) (l : List α) :
    chdirsOf (l.map fun a => Eff.chdir (f a)) = l.map f := by
  induction l with
  | nil => rfl
  | cons a t ih => simpa [chdirsOf, List.filterMap_cons] using ih

theorem finalCwd_append (s : String) (a b : List Eff) :
    finalCwd s (a ++ b) = finalCwd (finalCwd s a) b :=
  List.foldl_append _ _ a b

theorem sendsOf_nil : sendsOf [] = [] := rfl

theorem sendsOf_cons_chdir (dir : String) (t : List Eff) :
    sendsOf (Eff.chdir dir :: t) = sendsOf t := by
  simp [sendsOf, List.filterMap_cons]

theorem sendsOf_cons_send (m : OutMsg) (t : List Eff) :
    sendsOf (Eff.send m :: t) = m :: sendsOf t := by
  simp [sendsOf, List.filterMap_cons]

theorem chdirsOf_nil : chdirsOf [] = [] := rfl

theorem chdirsOf_cons_chdir (dir : String) (t : List Eff) :
    chdirsOf (Eff.chdir dir :: t) = dir :: chdirsOf t := by
  simp [chdirsOf, List.filterMap_cons]

theorem chdirsOf_cons_send (m : OutMsg) (t : List Eff) :
    chdirsOf (Eff.send m :: t) = chdirsOf t := by
  simp [chdirsOf, List.filterMap_cons]

/-- After the main body, the working directory is back to `cwd`. -/
theorem finalCwd_initMain (d : String → String) (c : TargetMeta → Except String Vitest)
    (cwd : String) (data : WorkerRunnerOptions) :
    finalCwd cwd (initMain d c cwd data).effs = cwd := by
  unfold initMain
  rw [runTargets_eq]
  cases hE : (okHandles c data.meta).isEmpty <;>
    simp [hE, finalCwd_append, finalCwd]

/-- The main body's directory changes: one per target, then the restore. -/
theorem chdirsOf_initMain (d : String → String) (c : TargetMeta → Except String Vitest)
    (cwd : String) (data : WorkerRunnerOptions) :
    chdirsOf (initMain d c cwd data).effs = (data.meta.map fun m => d m.id) ++ [cwd] := by
  unfold initMain
  rw [runTargets_eq]
  cases hE : (okHandles c data.meta).isEmpty <;>
    simp [hE, chdirsOf_append, chdirsOf_map_chdir, chdirsOf_cons_chdir,
      chdirsOf_cons_send, chdirsOf_nil]

/-- The main body sends exactly one message: `error` with the accumulated
list when no target succeeded, `ready` with the accumulated list otherwise. -/
theorem sendsOf_initMain (d : String → String) (c : TargetMeta → Except String Vitest)
    (cwd : String) (data : WorkerRunnerOptions) :
    sendsOf (initMain d c cwd data).effs =
      (if (okHandles c data.meta).isEmpty then
        [OutMsg.error (failEntries c data.meta)]
      else
        [OutMsg.ready (failEntries c data.meta)]) := by
  unfold initMain
  rw [runTargets_eq]
  cases hE : (okHandles c data.meta).isEmpty <;>
    simp [hE, sendsOf_append, sendsOf_map_chdir, sendsOf_cons_chdir,
      sendsOf_cons_send, sendsOf_nil]

/-! ## Claim theorems: bootstrap -/

/-- C1 (partial-success aggregation): for every `init` payload with N targets
of which k (0 < k < N) fail engine construction, and a loader registration
that does not throw, the worker sends exactly one message, a `ready` whose
error list is exactly the failing targets' `[identity, stack]` pairs in
payload order (k entries), and exactly N − k engine handles are constructed
and live, with the RPC channel built. -/
theorem init_partial_success (d : String → String) (registerO : String → Option String)
    (c : TargetMeta → Except String Vitest) (cwd : String) (data : WorkerRunnerOptions)
    (hld : loaderOk registerO data)
    (_hk : 0 < (failEntries c data.meta).length)
    (hkN : (failEntries c data.meta).length < data.meta.length) :
    sendsOf (init d registerO c cwd data).effs
        = [OutMsg.ready (failEntries c data.meta)] ∧
    (init d registerO c cwd data).vitest.length
        = data.meta.length - (failEntries c data.meta).length ∧
    (init d registerO c cwd data).rpcConstructed = true := by
  have hlen := failEntries_length_add_okHandles_length c data.meta
  have hne : (okHandles c data.meta).isEmpty = false := by
    apply isEmpty_false_of_ne_nil
    intro hnil
    rw [hnil] at hlen
    simp at hlen
    omega
  rw [init_eq_initMain d registerO c cwd data hld]
  refine ⟨?_, ?_, ?_⟩
  · rw [sendsOf_initMain, hne]
    rfl
  · unfold initMain
    rw [runTargets_eq]
    simp only [hne, Bool.false_eq_true, if_false, List.length_map]
    omega
  · unfold initMain
    rw [runTargets_eq]
    simp [hne]

/-- C2 (total failure): for every `init` payload all of whose targets fail
engine construction (loader registration succeeding), the worker sends
exactly one message, an `error` carrying one `[identity, stack]` pair per
target (N entries), constructs zero engine handles and no RPC channel, and
never sends a `ready` message. -/
theorem init_total_failure (d : String → String) (registerO : String → Option String)
    (c : TargetMeta → Except String Vitest) (cwd : String) (data : WorkerRunnerOptions)
    (hld : loaderOk registerO data)
    (hall : ∀ m ∈ data.meta, ∃ s, c m = Except.error s) :
    sendsOf (init d registerO c cwd data).effs
        = [OutMsg.error (failEntries c data.meta)] ∧
    (failEntries c data.meta).length = data.meta.length ∧
    (init d registerO c cwd data).vitest = [] ∧
    (init d registerO c cwd data).rpcConstructed = false ∧
    ∀ errs, OutMsg.ready errs ∉ sendsOf (init d registerO c cwd data).effs := by
  have hnil := okHandles_eq_nil_of_all_fail c hall
  rw [init_eq_initMain d registerO c cwd data hld]
  have hsends : sendsOf (initMain d c cwd data).effs
      = [OutMsg.error (failEntries c data.meta)] := by
    rw [sendsOf_initMain, hnil]
    rfl
  refine ⟨hsends, failEntries_length_of_all_fail c hall, ?_, ?_, ?_⟩
  · unfold initMain
    rw [runTargets_eq]
    simp [hnil]
  · unfold initMain
    rw [runTargets_eq]
    simp [hnil]
  · intro errs hmem
    rw [hsends] at hmem
    simp at hmem

/-- C3 (per-target failure isolation): for every `init` payload (loader
registration succeeding), every target is attempted — one `chdir` per target
in payload order, followed by the final restore — each failing target
contributes its `[identity, stack]` pair to the startup error list, and that
full list is what the single outgoing `ready` or `error` message carries. -/
theorem init_target_isolation (d : String → String) (registerO : String → Option String)
    (c : TargetMeta → Except String Vitest) (cwd : String) (data : WorkerRunnerOptions)
    (hld : loaderOk registerO data) :
    (sendsOf (init d registerO c cwd data).effs
        = [OutMsg.ready (failEntries c data.meta)] ∨
     sendsOf (init d registerO c cwd data).effs
        = [OutMsg.error (failEntries c data.meta)]) ∧
    chdirsOf (init d registerO c cwd data).effs
        = (data.meta.map fun m => d m.id) ++ [cwd] ∧
    ∀ m ∈ data.meta, ∀ s, c m = Except.error s →
      ErrEntry.pair m.id s ∈ failEntries c data.meta := by
  rw [init_eq_initMain d registerO c cwd data hld]
  refine ⟨?_, chdirsOf_initMain d c cwd data, ?_⟩
  · rw [sendsOf_initMain]
    cases hE : (okHandles c data.meta).isEmpty with
    | true => right; rw [if_pos rfl]
    | false => left; simp
  · intro m hm s hs
    unfold failEntries
    rw [List.mem_filterMap]
    exact ⟨m, hm, by rw [hs]⟩

/-- C4 (working-directory restoration): for every `init` payload, after
`init` processing completes (whether it ends in `ready` or a terminal
`error`) the process working directory equals its value from before `init`
began; and when loader registration does not throw, the directory-change
trace is exactly one change per target in payload order followed by the
final restore — the restore comes only after all targets were attempted. -/
theorem init_cwd_restored (d : String → String) (registerO : String → Option String)
    (c : TargetMeta → Except String Vitest) (cwd : String) (data : WorkerRunnerOptions) :
    finalCwd cwd (init d registerO c cwd data).effs = cwd ∧
    (loaderOk registerO data →
      chdirsOf (init d registerO c cwd data).effs
        = (data.meta.map fun m => d m.id) ++ [cwd]) := by
  constructor
  · cases hl : data.loader with
    | some l =>
      cases hr : registerO l with
      | some stack => simp [init, hl, hr, finalCwd]
      | none => simp [init, hl, hr, finalCwd_initMain]
    | none => simp [init, hl, finalCwd_initMain]
  · intro hld
    rw [init_eq_initMain d registerO c cwd data hld]
    exact chdirsOf_initMain d c cwd data

/-- C9 counterexample: the claim says the top-level `error` message's error
list carries the pair (identity `''`, stack) as an entry. Concretely, with a
loader whose registration throws with stack `"boom"`, the single message sent
is `error` with the flat two-string list `['', "boom"]` — the code's
`errors: ['', String(err.stack)]` — and that list does not contain the pair
entry `['', "boom"]` that the claim (matching the per-target entry format)
requires. -/
theorem toplevel_error_pair_counterexample :
    sendsOf (init (fun s => s) (fun _ => some "boom")
        (fun _ => Except.error "x") "/w"
        { meta := [], loader := some "ld" }).effs
      = [OutMsg.error [ErrEntry.str "", ErrEntry.str "boom"]] ∧
    ErrEntry.pair "" "boom" ∉ [ErrEntry.str "", ErrEntry.str "boom"] :=
  ⟨rfl, by decide⟩

/-- C9 amended: for every error that escapes `init` processing as a whole
(loader registration throwing, stack `s`), the worker catches it at the top
level and sends exactly one `error` message whose `errors` field is the flat
two-element list `['', s]` — the empty-string identity and the stack string
as two separate string elements, not as a single pair entry — and the worker
continues normally (the handler returns after sending: no engines, no RPC
channel, no further effects). -/
theorem toplevel_error_flat_list (d : String → String)
    (registerO : String → Option String) (c : TargetMeta → Except String Vitest)
    (cwd : String) (data : WorkerRunnerOptions) (l s : String)
    (hl : data.loader = some l) (hr : registerO l = some s) :
    (init d registerO c cwd data).effs
      = [Eff.send (OutMsg.error [ErrEntry.str "", ErrEntry.str s])] ∧
    (init d registerO c cwd data).vitest = [] ∧
    (init d registerO c cwd data).rpcConstructed = false := by
  simp [init, hl, hr, error]

/-! ## Claim theorems: reporter adapter -/

/-- C5 (deferred finish ordering): in one synchronous run, calling
`onFinished(files, errors)` on an adapter and then immediately
`onCollected(files2)` on the same adapter makes the `collected` event
observable before the `finished` event for that identity; the `collecting`
flag in the deferred `finished` event is the value computed when `onFinished`
was called — even if the engine overwrites the active name-filter pattern
(`setPattern p`, for arbitrary `p`) before the `nextTick` queue flushes, the
delivered flag is unchanged. -/
theorem finished_deferred_after_collected (r : VSCodeReporter)
    (files : Option (List VFile)) (errors : Option (List String))
    (files2 : Option (List VFile)) (p : Option Pattern) :
    runLoop r [ReporterOp.callFinished files errors,
               ReporterOp.callCollected files2,
               ReporterOp.setPattern p]
      = [Event.collected r.id files2 r.isCollecting,
         Event.finished r.id files errors r.isCollecting] := rfl

/-- C6 (collecting-flag derivation): the `collecting` flag is `true` exactly
when the engine's active name-filter pattern exists and its string form
equals the sentinel `'/$a/'` (plain string equality); with any other active
pattern, or none, the flag is `false`. -/
theorem isCollecting_iff_sentinel (r : VSCodeReporter) :
    (r.isCollecting = true ↔
      ∃ p, r.ctx.configOverride.testNamePattern = some p ∧
        p.toString = "/$a/") ∧
    (∀ p, r.ctx.configOverride.testNamePattern = some p →
      p.toString ≠ "/$a/" → r.isCollecting = false) := by
  constructor
  · unfold VSCodeReporter.isCollecting
    cases h : r.ctx.configOverride.testNamePattern with
    | none => simp
    | some p => simp [beq_iff_eq]
  · intro p hp hne
    unfold VSCodeReporter.isCollecting
    rw [hp]
    simpa [beq_iff_eq] using hne

/-- C7 (setup-file injection): for every engine instance and identity, the
adapter's `initVitest` stores the identity and the engine back-reference, and
appends the fixed setup-file path to the root configuration's setup-file list
and to every sub-project configuration's setup-file list, preserving their
existing entries (and leaving every other part of the engine state
untouched). -/
theorem initVitest_appends_setup (ctx : Vitest) (idv : String) :
    (VSCodeReporter.initVitest ctx idv).id = idv ∧
    (VSCodeReporter.initVitest ctx idv).rpc = none ∧
    (VSCodeReporter.initVitest ctx idv).ctx.config.setupFiles
      = some (ctx.config.setupFiles.getD [] ++ [setupFilePath]) ∧
    (VSCodeReporter.initVitest ctx idv).ctx.projects
      = ctx.projects.map (fun p =>
          { p with config := { p.config with
              setupFiles := some (p.config.setupFiles.getD [] ++ [setupFilePath]) } }) ∧
    (VSCodeReporter.initVitest ctx idv).ctx.configOverride = ctx.configOverride ∧
    (VSCodeReporter.initVitest ctx idv).ctx.getProjectByTaskId = ctx.getProjectByTaskId := by
  refine ⟨rfl, rfl, rfl, ?_, rfl, rfl⟩
  unfold VSCodeReporter.initVitest appendSetupFile
  rfl

/-- C8 (task-update enrichment): for every batch of result packs, every
object error in a pack's result has its `stacks` field replaced with the
stack trace resolved by `parseErrorStacktrace` through the source-map
accessor of the project looked up by that pack's task id, before forwarding;
the emitted event is one `taskUpdate` tagged with the adapter's identity
carrying the full enriched batch (same length, same task ids, non-object
errors untouched). -/
theorem onTaskUpdate_enriches_and_forwards
    (parse : TaskError → (String → Option String) → List String)
    (r : VSCodeReporter) (packs : List TaskResultPack) :
    (r.onTaskUpdate parse packs).2
      = Event.taskUpdate r.id (r.onTaskUpdate parse packs).1 ∧
    (r.onTaskUpdate parse packs).1.length = packs.length ∧
    (∀ i pk, packs.get? i = some pk →
      (r.onTaskUpdate parse packs).1.get? i = some
        { pk with result := pk.result.map (fun res =>
            { res with errors := (res.errors.map
                (List.map (resolveError parse (r.ctx.getProjectByTaskId pk.taskId)))) }) }) ∧
    (∀ project sl payload, resolveError parse project (TaskError.obj sl payload)
      = TaskError.obj (parse (TaskError.obj sl payload)
          project.getBrowserSourceMapModuleById) payload) ∧
    (∀ project v, resolveError parse project (TaskError.prim v) = TaskError.prim v) := by
  refine ⟨rfl, ?_, ?_, fun _ _ _ => rfl, fun _ _ => rfl⟩
  · unfold VSCodeReporter.onTaskUpdate
    simp
  · intro i pk hpk
    unfold VSCodeReporter.onTaskUpdate
    rw [List.get?_map, hpk]
    rfl

/-- C10 (no pattern, not collecting): whenever no name-filter override is
active on the engine, the `collecting` flag is `false`, and every
`collected`, `watcherStart`, `watcherRerun` and (deferred) `finished` event
the adapter emits in that state carries `collecting = false`. -/
theorem no_pattern_not_collecting (r : VSCodeReporter)
    (h : r.ctx.configOverride.testNamePattern = none) :
    r.isCollecting = false ∧
    (∀ files, r.onCollected files = Event.collected r.id files false) ∧
    (∀ files errors, r.onWatcherStart files errors
      = Event.watcherStart r.id files errors false) ∧
    (∀ files trigger, r.onWatcherRerun files trigger
      = Event.watcherRerun r.id files trigger false) ∧
    (∀ files errors, r.onFinished files errors
      = Event.finished r.id files errors false) := by
  have hc : r.isCollecting = false := by
    unfold VSCodeReporter.isCollecting
    rw [h]
  refine ⟨hc, ?_, ?_, ?_, ?_⟩
  · intro files
    unfold VSCodeReporter.onCollected
    rw [hc]
  · intro files errors
    unfold VSCodeReporter.onWatcherStart
    rw [hc]
  · intro files trigger
    unfold VSCodeReporter.onWatcherRerun
    rw [hc]
  · intro files errors
    unfold VSCodeReporter.onFinished
    rw [hc]

/-! ## Concrete fixtures for witnesses -/

/-- A sub-project with one existing setup file and a source-map accessor. -/
def projP : Project :=
  { config := { setupFiles := some ["old.setup.ts"] }
    getBrowserSourceMapModuleById := fun _ => some "map" }

/-- A concrete engine instance with no active name-filter pattern. -/
def ctxA : Vitest :=
  { config := { setupFiles := none }
    projects := [projP]
    configOverride := { testNamePattern := none }
    getProjectByTaskId := fun _ => projP }

/-- Target descriptor A (constructs successfully in the fixtures). -/
def metaA : TargetMeta :=
  { id := "/w/A/x", configFile := some "a.config", workspaceFile := none
    vitestNodePath := "vn" }

/-- Target descriptor B (fails construction in the fixtures). -/
def metaB : TargetMeta :=
  { id := "/w/B/x", configFile := none, workspaceFile := none
    vitestNodePath := "vn" }

/-- Engine-constructor oracle where exactly target B throws `"no config"`. -/
def cBFails : TargetMeta → Except String Vitest :=
  fun m => if m.id = "/w/B/x" then Except.error "no config" else Except.ok ctxA

/-- An `init` payload with targets A and B and no loader. -/
def dataAB : WorkerRunnerOptions := { meta := [metaA, metaB], loader := none }

/-- An `init` payload with no targets and a loader. -/
def dataLoader : WorkerRunnerOptions := { meta := [], loader := some "ld" }

/-- The sentinel name-filter pattern: `toString` renders it as `'/$a/'`. -/
def sentinel : Pattern := { source := "$a", flags := "" }

/-- A non-sentinel pattern. -/
def otherPat : Pattern := { source := "foo", flags := "" }

/-- Adapter whose engine has no active name-filter pattern. -/
def rNone : VSCodeReporter := { rpc := none, ctx := ctxA, id := "A" }

/-- Adapter whose engine's active pattern is the sentinel. -/
def rColl : VSCodeReporter :=
  { rpc := none
    ctx := { ctxA with configOverride := { testNamePattern := some sentinel } }
    id := "A" }

/-- Adapter whose engine's active pattern is a normal (non-sentinel) filter. -/
def rOther : VSCodeReporter :=
  { rpc := none
    ctx := { ctxA with configOverride := { testNamePattern := some otherPat } }
    id := "A" }

/-- A one-pack batch holding an object error and a primitive error. -/
def pk0 : TaskResultPack :=
  { taskId := "t1"
    result := some { errors := some [TaskError.obj ["rawframe"] "E", TaskError.prim "s"] } }

/-- A concrete `parseErrorStacktrace` oracle. -/
def parseW : TaskError → (String → Option String) → List String :=
  fun _ _ => ["resolvedframe"]

/-! ## Witnesses -/

/-- C1 witness: payload `[A, B]` where only B fails (`"no config"`): one
`ready` whose list is B's pair, one live engine. -/
theorem init_partial_success_witness :
    sendsOf (init (fun s => s) (fun _ => none) cBFails "/w" dataAB).effs
        = [OutMsg.ready (failEntries cBFails dataAB.meta)] ∧
    (init (fun s => s) (fun _ => none) cBFails "/w" dataAB).vitest.length
        = dataAB.meta.length - (failEntries cBFails dataAB.meta).length ∧
    (init (fun s => s) (fun _ => none) cBFails "/w" dataAB).rpcConstructed = true :=
  init_partial_success (fun s => s) (fun _ => none) cBFails "/w" dataAB
    (by simp [loaderOk, dataAB]) (by decide) (by decide)

/-- C2 witness: payload `[A, B]` where both targets fail (`"boom"`). -/
theorem init_total_failure_witness :
    sendsOf (init (fun s => s) (fun _ => none)
        (fun _ => Except.error "boom") "/w" dataAB).effs
        = [OutMsg.error (failEntries (fun _ => Except.error "boom") dataAB.meta)] ∧
    (failEntries (fun _ => Except.error "boom") dataAB.meta).length
        = dataAB.meta.length ∧
    (init (fun s => s) (fun _ => none)
        (fun _ => Except.error "boom") "/w" dataAB).vitest = [] ∧
    (init (fun s => s) (fun _ => none)
        (fun _ => Except.error "boom") "/w" dataAB).rpcConstructed = false ∧
    ∀ errs, OutMsg.ready errs ∉ sendsOf (init (fun s => s) (fun _ => none)
        (fun _ => Except.error "boom") "/w" dataAB).effs :=
  init_total_failure (fun s => s) (fun _ => none) (fun _ => Except.error "boom")
    "/w" dataAB (by simp [loaderOk, dataAB]) (fun m _ => ⟨"boom", rfl⟩)

/-- C3 witness: payload `[A, B]` where only B fails; both targets attempted,
B's pair recorded. -/
theorem init_target_isolation_witness :
    (sendsOf (init (fun s => s) (fun _ => none) cBFails "/w" dataAB).effs
        = [OutMsg.ready (failEntries cBFails dataAB.meta)] ∨
     sendsOf (init (fun s => s) (fun _ => none) cBFails "/w" dataAB).effs
        = [OutMsg.error (failEntries cBFails dataAB.meta)]) ∧
    chdirsOf (init (fun s => s) (fun _ => none) cBFails "/w" dataAB).effs
        = (dataAB.meta.map fun m => m.id) ++ ["/w"] ∧
    ∀ m ∈ dataAB.meta, ∀ s, cBFails m = Except.error s →
      ErrEntry.pair m.id s ∈ failEntries cBFails dataAB.meta :=
  init_target_isolation (fun s => s) (fun _ => none) cBFails "/w" dataAB
    (by simp [loaderOk, dataAB])

/-- C4 witness: payload `[A, B]` where only B fails; the directory trace is
`[dirname A, dirname B, original]` and the final directory is the original. -/
theorem init_cwd_restored_witness :
    finalCwd "/w" (init (fun s => s) (fun _ => none) cBFails "/w" dataAB).effs = "/w" ∧
    chdirsOf (init (fun s => s) (fun _ => none) cBFails "/w" dataAB).effs
        = (dataAB.meta.map fun m => m.id) ++ ["/w"] := by
  have h := init_cwd_restored (fun s => s) (fun _ => none) cBFails "/w" dataAB
  exact ⟨h.1, h.2 (by simp [loaderOk, dataAB])⟩

/-- C6 witness: with the sentinel active the flag is `true`; with a normal
pattern it is `false`. -/
theorem isCollecting_iff_sentinel_witness :
    rColl.isCollecting = true ∧ rOther.isCollecting = false := by
  refine ⟨(isCollecting_iff_sentinel rColl).1.mpr ⟨sentinel, rfl, rfl⟩, ?_⟩
  exact (isCollecting_iff_sentinel rOther).2 otherPat rfl (by decide)

/-- C8 witness: a one-pack batch with an object and a primitive error; the
event carries the enriched batch and pack 0 is enriched as specified. -/
theorem onTaskUpdate_enriches_and_forwards_witness :
    (rNone.onTaskUpdate parseW [pk0]).2
      = Event.taskUpdate rNone.id (rNone.onTaskUpdate parseW [pk0]).1 ∧
    (rNone.onTaskUpdate parseW [pk0]).1.get? 0 = some
      { pk0 with result := pk0.result.map (fun res =>
          { res with errors := (res.errors.map
              (List.map (resolveError parseW (rNone.ctx.getProjectByTaskId pk0.taskId)))) }) } := by
  have h := onTaskUpdate_enriches_and_forwards parseW rNone [pk0]
  exact ⟨h.1, h.2.2.1 0 pk0 rfl⟩

/-- C9 (amended) witness: loader `"ld"` whose registration throws with stack
`"boom"`: the single message is `error` with the flat list `['', "boom"]`. -/
theorem toplevel_error_flat_list_witness :
    (init (fun s => s) (fun _ => some "boom") cBFails "/w" dataLoader).effs
      = [Eff.send (OutMsg.error [ErrEntry.str "", ErrEntry.str "boom"])] ∧
    (init (fun s => s) (fun _ => some "boom") cBFails "/w" dataLoader).vitest = [] ∧
    (init (fun s => s) (fun _ => some "boom") cBFails "/w" dataLoader).rpcConstructed
      = false :=
  toplevel_error_flat_list (fun s => s) (fun _ => some "boom") cBFails "/w"
    dataLoader "ld" "boom" rfl rfl

/-- C10 witness: adapter with no active pattern: flag `false`, and `collected`
and deferred `finished` events carry `false`. -/
theorem no_pattern_not_collecting_witness :
    rNone.isCollecting = false ∧
    rNone.onCollected (some ["f.test.ts"])
      = Event.collected rNone.id (some ["f.test.ts"]) false ∧
    rNone.onFinished none none = Event.finished rNone.id none none false := by
  have h := no_pattern_not_collecting rNone rfl
  exact ⟨h.1, h.2.1 (some ["f.test.ts"]), h.2.2.2.2 none none⟩
